import Mathlib

/-!
Wallet service: repository transaction and HTTP handler

A shallow embedding of `internal/repository/repository.go`,
`internal/domain/domain.go` and `internal/handler/handler.go`.

* Go `int64` values are integers; the one Go-side arithmetic operation that
  can leave the range, the negation `-amount`, wraps (`wrap64`).
* Go `error` values are the type `Err`: the sentinels the code compares
  against, any other leaf error, and `fmt.Errorf("...: %w", err)` wrapping.
* The PostgreSQL table `wallet` is a finite map from wallet id to balance.
  A transaction works on its own view of the table; `Commit` installs the
  view, and the deferred `Rollback` discards it on every other exit.
* Failures of the database driver are inputs (`Faults`): for each statement,
  the text of the error the driver answers with, if any.
* The body of a POST request is a JSON object given by its members; `Decode`
  fills `WalletRequest` from it by the struct tags of `domain.go`.
-/

namespace WalletApp

/-! ## Go values -/

/-- Smallest `int64`. -/
def minInt64 : Int := -9223372036854775808

/-- Largest `int64`. -/
def maxInt64 : Int := 9223372036854775807

/-- The integer is representable as a Go `int64`. -/
def isInt64 (n : Int) : Prop := minInt64 ≤ n ∧ n ≤ maxInt64

instance (n : Int) : Decidable (isInt64 n) := by
  unfold isInt64; exact inferInstance

/-- Two's-complement reduction of an integer to the `int64` range: the value a
Go `int64` expression holds after overflow. -/
def wrap64 (n : Int) : Int := (n + 9223372036854775808) % 18446744073709551616 - 9223372036854775808

/-- Go `error` values, as far as this program tells them apart: the sentinels of
`internal/errors` and of pgx, any other leaf error (identified by its text),
and an error wrapped by `fmt.Errorf(ctx + ": %w", inner)`. -/
inductive Err where
  | ErrInsufficientFunds
  | ErrWalletNotFound
  | ErrNoRows
  | other (text : String)
  | wrapf (ctx : String) (inner : Err)
  deriving DecidableEq, Repr

/-- Modelled from the spec: the text of `appErrors.ErrInsufficientFunds`; package
`internal/errors` is not among the sources. The spec's example response and
the handler test both give `insufficient funds`. -/
def ErrInsufficientFundsText : String := "insufficient funds"

/-- Modelled from the spec: the text of `appErrors.ErrWalletNotFound`; package
`internal/errors` is not among the sources and no response ever carries this
text, so it is only a placeholder for the sentinel's message. -/
def ErrWalletNotFoundText : String := "wallet not found"

/-- Go's `err.Error()`. -/
def Err.Error : Err → String
  | .ErrInsufficientFunds => ErrInsufficientFundsText
  | .ErrWalletNotFound => ErrWalletNotFoundText
  | .ErrNoRows => "no rows in result set"
  | .other text => text
  | .wrapf ctx inner => ctx ++ ": " ++ inner.Error

/-- Go's `errors.Is(err, target)`: walk the `Unwrap` chain of `err`, comparing
each link with `target`. -/
def Err.Is : Err → Err → Bool
  | .wrapf ctx inner, target =>
    if Err.wrapf ctx inner = target then true else inner.Is target
  | e, target => decide (e = target)

/-! ## internal/domain -/

/-- `type OperationType string`: any string can be passed, two are named. -/
abbrev OperationType := String

/-- `DEPOSIT OperationType = "DEPOSIT"`. -/
def DEPOSIT : OperationType := "DEPOSIT"

/-- `WITHDRAW OperationType = "WITHDRAW"`. -/
def WITHDRAW : OperationType := "WITHDRAW"

/-- `domain.WalletRequest`, after JSON decoding. -/
structure WalletRequest where
  WalletID : String
  OperationType : OperationType
  Amount : Int
  deriving DecidableEq, Repr

/-- `domain.BalanceResponse`. -/
structure BalanceResponse where
  WalletID : String
  Balance : Int
  deriving DecidableEq, Repr

/-- `domain.ErrorResponse`. -/
structure ErrorResponse where
  Error : String
  deriving DecidableEq, Repr

/-! ## The store -/

/-- Modelled from the spec: the table `wallet (id, balance)`; its migration is
not among the sources. The spec identifies a wallet by its id, so the table
is a map from id to balance. -/
abbrev Store := String → Option Int

/-- The table with no rows. -/
def Store.empty : Store := fun _ => none

/-- The table with the row of `id` set to `balance`. -/
def Store.put (s : Store) (id : String) (balance : Int) : Store :=
  fun k => if k = id then some balance else s k

/-- Driver failures, one per statement of `ProcessTransaction`: `some text`
makes the statement fail with a driver error of that text. -/
structure Faults where
  begin : Option String
  select : Option String
  insert : Option String
  update : Option String
  commit : Option String
  deriving DecidableEq, Repr

/-- No statement fails. -/
def Faults.none : Faults := ⟨Option.none, Option.none, Option.none, Option.none, Option.none⟩

/-- The data model's invariant: every balance in the table is at least 0. -/
def nonNegative (db : Store) : Prop := ∀ k b, db k = some b → 0 ≤ b

/-- `QueryRow(SELECT balance FROM wallet WHERE id = $1 ...).Scan(&balance)`:
a driver failure, `pgx.ErrNoRows` when no row matches, else the balance. -/
def queryBalance (fault : Option String) (view : Store) (walletID : String) : Except Err Int :=
  match fault with
  | some text => .error (.other text)
  | Option.none =>
    match view walletID with
    | Option.none => .error .ErrNoRows
    | some balance => .ok balance

/-- `Exec(INSERT INTO wallet (id, balance) VALUES ($1, $2), walletID, 0)`. -/
def execInsert (fault : Option String) (view : Store) (walletID : String) (balance : Int) :
    Except Err Store :=
  match fault with
  | some text => .error (.other text)
  | Option.none => .ok (view.put walletID balance)

/-- Modelled from the spec: `Exec(UPDATE wallet SET balance = balance + $1 WHERE
id = $2)` on a balance column of the spec's 64-bit integer type (the migration
that declares the column is not among the sources): the sum is computed by the
database, which refuses a result outside the column's range. Returns the new
view and the number of rows affected. -/
def execUpdate (fault : Option String) (view : Store) (delta : Int) (walletID : String) :
    Except Err (Store × Nat) :=
  match fault with
  | some text => .error (.other text)
  | Option.none =>
    match view walletID with
    | Option.none => .ok (view, 0)
    | some balance =>
      if isInt64 (balance + delta) then .ok (view.put walletID (balance + delta), 1)
      else .error (.other "bigint out of range")

/-! ## internal/repository -/

/-- Lines 33-52 of `ProcessTransaction`: read the balance under the row lock,
creating the wallet with balance 0 when the read finds no row. An error is the
function's early return; a result is the transaction's view and `balance`. -/
def selectOrCreate (f : Faults) (view : Store) (walletID : String) : Except Err (Store × Int) :=
  match queryBalance f.select view walletID with
  | .ok balance => .ok (view, balance)
  | .error err =>
    if err.Is .ErrNoRows then
      match execInsert f.insert view walletID 0 with
      | .error err => .error (.wrapf "failed to create wallet" err)
      | .ok view => .ok (view, 0)
    else
      .error (.wrapf "failed to get wallet" err)

/-- Lines 58-63 of `ProcessTransaction`: `delta = amount` for a deposit and
`delta = -amount`, in `int64` arithmetic, for every other operation type. -/
def delta (opType : OperationType) (amount : Int) : Int :=
  if opType = DEPOSIT then amount else wrap64 (-amount)

/-- Lines 54-75 of `ProcessTransaction`: the funds check, the signed delta and
the update. An error is the function's early return; a result is the view
handed to `Commit`. -/
def applyDelta (f : Faults) (view : Store) (walletID : String) (opType : OperationType)
    (amount balance : Int) : Except Err Store :=
  if opType = WITHDRAW ∧ balance < amount then
    .error .ErrInsufficientFunds
  else
    match execUpdate f.update view (delta opType amount) walletID with
    | .error err => .error (.wrapf "failed to update balance" err)
    | .ok (view, rowsAffected) =>
      if rowsAffected = 0 then .error .ErrWalletNotFound else .ok view

/-- The statements of `WalletRepository.ProcessTransaction` between `Begin` and
`Commit`, run on the transaction's view of the table. -/
def transactionBody (f : Faults) (view : Store) (walletID : String) (opType : OperationType)
    (amount : Int) : Except Err Store :=
  match selectOrCreate f view walletID with
  | .error err => .error err
  | .ok (view, balance) => applyDelta f view walletID opType amount balance

/-- `WalletRepository.ProcessTransaction`: the returned error (`none` is Go's
`nil`) and the committed table after the call. `defer tx.Rollback(ctx)` makes
every return that did not commit leave the table as it was at `Begin`. -/
def ProcessTransaction (f : Faults) (db : Store) (walletID : String) (opType : OperationType)
    (amount : Int) : Option Err × Store :=
  match f.begin with
  | some text => (some (.wrapf "failed to begin transaction" (.other text)), db)
  | Option.none =>
    match transactionBody f db walletID opType amount with
    | .error err => (some err, db)
    | .ok view =>
      match f.commit with
      | some text => (some (.wrapf "failed to commit transaction" (.other text)), db)
      | Option.none => (Option.none, view)

/-- `WalletRepository.GetBalance`: the returned pair `(balance, err)` and the
table after the call. -/
def GetBalance (fault : Option String) (db : Store) (walletID : String) :
    (Int × Option Err) × Store :=
  match queryBalance fault db walletID with
  | .ok balance => ((balance, Option.none), db)
  | .error err =>
    if err.Is .ErrNoRows then ((0, some .ErrWalletNotFound), db)
    else ((0, some (.wrapf "failed to get balance" err)), db)

/-! ## internal/handler -/

/-- The body written to the `http.ResponseWriter`: nothing, or the JSON encoding
of one of the two response structures. -/
inductive Body where
  | empty
  | error (e : ErrorResponse)
  | balance (b : BalanceResponse)
  deriving DecidableEq, Repr

/-- What a handler writes: the status code, the `Content-Type` header if the
handler sets one, and the body. -/
structure Response where
  status : Nat
  contentType : Option String
  body : Body
  deriving DecidableEq, Repr

/-- `sendErrorResponse(w, message, statusCode)`. -/
def sendErrorResponse (message : String) (statusCode : Nat) : Response :=
  ⟨statusCode, Option.none, .error ⟨message⟩⟩

/-- The interface `handler.Wallet`, over the state `σ` of its implementation. -/
structure Wallet (σ : Type) where
  ProcessTransaction : String → OperationType → Int → σ → Option Err × σ
  GetBalance : String → σ → (Int × Option Err) × σ

/-- A call a handler made on its `Wallet`. -/
inductive Call where
  | ProcessTransaction (walletID : String) (opType : OperationType) (amount : Int)
  | GetBalance (walletID : String)
  deriving DecidableEq, Repr

/-- The outcome of serving one request: the response, the state of the `Wallet`
implementation afterwards, and the calls made on it, in order. -/
structure Served (σ : Type) where
  response : Response
  state : σ
  calls : List Call

/-- `WalletHandler.WalletOperationHandler`. `decoded` is the outcome of
`json.NewDecoder(r.Body).Decode(&req)`. -/
def WalletOperationHandler {σ : Type} (srv : Wallet σ) (decoded : Except Err WalletRequest)
    (st : σ) : Served σ :=
  match decoded with
  | .error _ => ⟨sendErrorResponse "Invalid request body" 400, st, []⟩
  | .ok req =>
    if req.WalletID = "" then
      ⟨sendErrorResponse "Wallet ID is required" 400, st, []⟩
    else if req.OperationType ≠ DEPOSIT ∧ req.OperationType ≠ WITHDRAW then
      ⟨sendErrorResponse "Operation type must be DEPOSIT or WITHDRAW" 400, st, []⟩
    else if req.Amount ≤ 0 then
      ⟨sendErrorResponse "Amount must be more than 0" 400, st, []⟩
    else
      let call := Call.ProcessTransaction req.WalletID req.OperationType req.Amount
      match srv.ProcessTransaction req.WalletID req.OperationType req.Amount st with
      | (some err, st) =>
        if err.Is .ErrInsufficientFunds then
          ⟨sendErrorResponse err.Error 400, st, [call]⟩
        else
          ⟨sendErrorResponse "Internal server error" 500, st, [call]⟩
      | (Option.none, st) => ⟨⟨200, some "application/json", .empty⟩, st, [call]⟩

/-- `WalletHandler.GetBalanceHandler`. `walletID` is `chi.URLParam(r, "walletId")`. -/
def GetBalanceHandler {σ : Type} (srv : Wallet σ) (walletID : String) (st : σ) : Served σ :=
  if walletID = "" then
    ⟨sendErrorResponse "Wallet ID is required" 400, st, []⟩
  else
    match srv.GetBalance walletID st with
    | ((_, some err), st) =>
      if err.Is .ErrWalletNotFound then
        ⟨sendErrorResponse "Wallet not found" 404, st, [.GetBalance walletID]⟩
      else
        ⟨sendErrorResponse "Internal server error" 500, st, [.GetBalance walletID]⟩
    | ((balance, Option.none), st) =>
      ⟨⟨200, some "application/json", .balance ⟨walletID, balance⟩⟩, st, [.GetBalance walletID]⟩

/-- `service.WalletService`: both methods pass the call on to the repository. -/
def WalletService {σ : Type} (repo : Wallet σ) : Wallet σ :=
  ⟨fun walletID opType amount st => repo.ProcessTransaction walletID opType amount st,
    fun walletID st => repo.GetBalance walletID st⟩

/-- `WalletRepository` as a `Wallet`: its state is the table; `f` and `readFault`
are what the driver does during the call. -/
def WalletRepository (f : Faults) (readFault : Option String) : Wallet Store :=
  ⟨fun walletID opType amount db => ProcessTransaction f db walletID opType amount,
    fun walletID db => GetBalance readFault db walletID⟩

/-- A `Wallet` whose `ProcessTransaction` always returns `err` (the mock of the
handler tests). -/
def failingWallet (err : Err) : Wallet Unit :=
  ⟨fun _ _ _ st => (some err, st), fun _ st => ((0, some err), st)⟩

/-! ## The request body -/

/-- A JSON value as `encoding/json` treats it when it fills a field of
`WalletRequest`: `null`, a string, a number literal that is an integer, any
other number literal, and everything else (`true`, `false`, an array, an
object). -/
inductive JsonValue where
  | null
  | string (s : String)
  | integer (n : Int)
  | fraction
  | other
  deriving DecidableEq, Repr

/-- The body of a POST request: bytes that are not JSON, a JSON value that is not
an object, or a JSON object with its members in the order they are written. -/
inductive RequestBody where
  | malformed
  | value (v : JsonValue)
  | object (members : List (String × JsonValue))
  deriving DecidableEq, Repr

/-- The struct tag of `WalletRequest.WalletID` in domain.go. -/
def walletIDTag : String := "valletId"

/-- The struct tag of `WalletRequest.OperationType` in domain.go. -/
def operationTypeTag : String := "operationType"

/-- The struct tag of `WalletRequest.Amount` in domain.go. -/
def amountTag : String := "amount"

/-- The key selects the field with this tag: `encoding/json` takes an exact match
and otherwise a match up to case. None of the three tags has a letter with a
case variant outside ASCII, so the match up to case is equality of the
lower-cased strings. -/
def matchesTag (key tag : String) : Bool :=
  key.data.map Char.toLower == tag.data.map Char.toLower

/-- The error `Decode` returns for a value that does not fit its target. -/
def unmarshalTypeError : Err := .other "json: cannot unmarshal value into Go struct field"

/-- One member of the object: the field its key selects is set from its value;
`null` leaves the field as it is; a value of the wrong kind, or an integer
outside `int64` for `Amount`, is recorded as the error unless one is recorded
already, and decoding goes on; a key that selects no field is skipped. -/
def decodeMember (acc : WalletRequest × Option Err) (member : String × JsonValue) :
    WalletRequest × Option Err :=
  let saveError : WalletRequest × Option Err :=
    (acc.1, match acc.2 with
      | some err => some err
      | Option.none => some unmarshalTypeError)
  if matchesTag member.1 walletIDTag then
    match member.2 with
    | .null => acc
    | .string s => (⟨s, acc.1.OperationType, acc.1.Amount⟩, acc.2)
    | _ => saveError
  else if matchesTag member.1 operationTypeTag then
    match member.2 with
    | .null => acc
    | .string s => (⟨acc.1.WalletID, s, acc.1.Amount⟩, acc.2)
    | _ => saveError
  else if matchesTag member.1 amountTag then
    match member.2 with
    | .null => acc
    | .integer n =>
      if isInt64 n then (⟨acc.1.WalletID, acc.1.OperationType, n⟩, acc.2) else saveError
    | _ => saveError
  else acc

/-- `json.NewDecoder(r.Body).Decode(&req)` on `var req domain.WalletRequest`:
the fields start at their zero values; `null` decodes to nothing; any other
value that is not an object is an error. -/
def Decode (body : RequestBody) : Except Err WalletRequest :=
  match body with
  | .malformed => .error (.other "invalid character looking for beginning of value")
  | .value .null => .ok ⟨"", "", 0⟩
  | .value _ => .error unmarshalTypeError
  | .object members =>
    match members.foldl decodeMember (⟨"", "", 0⟩, Option.none) with
    | (_, some err) => .error err
    | (req, Option.none) => .ok req

/-- The route `POST /api/v1/wallet` of main.go: `WalletOperationHandler` on the
body of the request. -/
def PostWallet {σ : Type} (srv : Wallet σ) (body : RequestBody) (st : σ) : Served σ :=
  WalletOperationHandler srv (Decode body) st

/-! ## Lemmas on the embedding -/

theorem selectOrCreate_found (f : Faults) (view : Store) (w : String) (B : Int)
    (hs : f.select = Option.none) (hB : view w = some B) :
    selectOrCreate f view w = .ok (view, B) := by
  simp [selectOrCreate, queryBalance, hs, hB]

theorem selectOrCreate_absent (f : Faults) (view : Store) (w : String)
    (hs : f.select = Option.none) (hi : f.insert = Option.none) (hB : view w = Option.none) :
    selectOrCreate f view w = .ok (view.put w 0, 0) := by
  simp [selectOrCreate, queryBalance, execInsert, hs, hi, hB, Err.Is]

theorem Store.put_same (s : Store) (w : String) (b : Int) : s.put w b w = some b := by
  simp [Store.put]

theorem Store.put_other (s : Store) (w k : String) (b : Int) (h : k ≠ w) : s.put w b k = s k := by
  simp [Store.put, h]

/-- An error return leaves the committed table as it was. -/
theorem ProcessTransaction_error_store (f : Faults) (db : Store) (w : String)
    (op : OperationType) (amount : Int) (e : Err)
    (h : (ProcessTransaction f db w op amount).1 = some e) :
    (ProcessTransaction f db w op amount).2 = db := by
  unfold ProcessTransaction at h ⊢
  cases hb : f.begin with
  | some text => simp
  | none =>
    simp only [hb] at h ⊢
    cases ht : transactionBody f db w op amount with
    | error err => simp
    | ok view =>
      simp only [ht] at h ⊢
      cases hc : f.commit with
      | some text => simp
      | none => simp [hc] at h

/-- What `selectOrCreate` hands on when it does not return early: the stored
balance and the untouched view, or 0 and the view with the new row. -/
theorem selectOrCreate_ok (f : Faults) (db v : Store) (w : String) (B : Int)
    (h : selectOrCreate f db w = .ok (v, B)) :
    (db w = some B ∧ v = db) ∨ (db w = Option.none ∧ B = 0 ∧ v = db.put w 0) := by
  unfold selectOrCreate queryBalance execInsert at h
  cases hs : f.select with
  | some text => simp [hs, Err.Is] at h
  | none =>
    simp only [hs] at h
    cases hw : db w with
    | some b =>
      simp only [hw, Except.ok.injEq, Prod.mk.injEq] at h
      exact Or.inl ⟨by rw [h.2], h.1.symm⟩
    | none =>
      simp only [hw] at h
      cases hi : f.insert with
      | some text => simp [hi, Err.Is] at h
      | none =>
        simp [hi, Err.Is] at h
        exact Or.inr ⟨rfl, h.2.symm, h.1.symm⟩

/-- What `applyDelta` hands to `Commit`: the funds check passed, the row was
there, the sum fits the column, and the view has the row updated. -/
theorem applyDelta_ok (f : Faults) (v view : Store) (w : String) (op : OperationType)
    (amount B : Int) (h : applyDelta f v w op amount B = .ok view) :
    ¬ (op = WITHDRAW ∧ B < amount) ∧
      ∃ b : Int, v w = some b ∧ isInt64 (b + delta op amount) ∧
        view = v.put w (b + delta op amount) := by
  unfold applyDelta execUpdate at h
  by_cases hc : op = WITHDRAW ∧ B < amount
  · simp [hc] at h
  · refine ⟨hc, ?_⟩
    simp only [hc, if_false] at h
    cases hu : f.update with
    | some text => simp [hu] at h
    | none =>
      simp only [hu] at h
      cases hw : v w with
      | none => simp [hw] at h
      | some b =>
        simp only [hw] at h
        by_cases hr : isInt64 (b + delta op amount)
        · simp [hr] at h
          exact ⟨b, rfl, hr, h.symm⟩
        · simp [hr] at h

/-- A successful return has read a balance `B` (0 for a wallet it created),
passed the funds check, and committed `B + delta` for the wallet and nothing
else. -/
theorem ProcessTransaction_ok_store (f : Faults) (db : Store) (w : String)
    (op : OperationType) (amount : Int)
    (h : (ProcessTransaction f db w op amount).1 = Option.none) :
    ∃ B : Int, (db w = some B ∨ (db w = Option.none ∧ B = 0)) ∧
      ¬ (op = WITHDRAW ∧ B < amount) ∧ isInt64 (B + delta op amount) ∧
      ∀ k, (ProcessTransaction f db w op amount).2 k =
        if k = w then some (B + delta op amount) else db k := by
  unfold ProcessTransaction at h ⊢
  cases hb : f.begin with
  | some text => simp [hb] at h
  | none =>
    simp only [hb] at h ⊢
    cases ht : transactionBody f db w op amount with
    | error err => simp [ht] at h
    | ok view =>
      simp only [ht] at h ⊢
      cases hc : f.commit with
      | some text => simp [hc] at h
      | none =>
        simp only []
        unfold transactionBody at ht
        cases hsel : selectOrCreate f db w with
        | error err => simp [hsel] at ht
        | ok p =>
          obtain ⟨v, B⟩ := p
          simp only [hsel] at ht
          obtain ⟨hfunds, b, hvb, hrange, hview⟩ := applyDelta_ok f v view w op amount B ht
          rcases selectOrCreate_ok f db v w B hsel with ⟨hdb, hv⟩ | ⟨hdb, hB0, hv⟩
          · subst hv
            have hbB : b = B := by rw [hdb] at hvb; exact (Option.some.inj hvb).symm
            subst hbB
            refine ⟨b, Or.inl hdb, hfunds, hrange, ?_⟩
            intro k
            rw [hview]
            simp [Store.put]
          · subst hv
            have hbB : b = B := by
              rw [Store.put_same] at hvb; rw [hB0]; exact (Option.some.inj hvb).symm
            subst hbB
            refine ⟨b, Or.inr ⟨hdb, hB0⟩, hfunds, hrange, ?_⟩
            intro k
            rw [hview]
            by_cases hk : k = w <;> simp [Store.put, hk]

/-- The call on a wallet that is in the table, when `Begin` and the read do not
fail. -/
theorem ProcessTransaction_found (f : Faults) (db : Store) (w : String) (op : OperationType)
    (amount B : Int) (hb : f.begin = Option.none) (hs : f.select = Option.none)
    (hB : db w = some B) :
    ProcessTransaction f db w op amount =
      if op = WITHDRAW ∧ B < amount then (some .ErrInsufficientFunds, db)
      else
        match f.update with
        | some text => (some (.wrapf "failed to update balance" (.other text)), db)
        | Option.none =>
          if isInt64 (B + delta op amount) then
            match f.commit with
            | some text => (some (.wrapf "failed to commit transaction" (.other text)), db)
            | Option.none => (Option.none, db.put w (B + delta op amount))
          else (some (.wrapf "failed to update balance" (.other "bigint out of range")), db) := by
  unfold ProcessTransaction transactionBody
  rw [selectOrCreate_found f db w B hs hB]
  simp only [hb, applyDelta, execUpdate, hB]
  by_cases hc : op = WITHDRAW ∧ B < amount
  · simp [hc]
  · simp only [hc, if_false]
    cases hu : f.update with
    | some text => simp
    | none =>
      by_cases hr : isInt64 (B + delta op amount)
      · cases hco : f.commit <;> simp [hr]
      · simp [hr]

/-- The call on a wallet that is not in the table, when `Begin`, the read and
the insert do not fail. -/
theorem ProcessTransaction_absent (f : Faults) (db : Store) (w : String) (op : OperationType)
    (amount : Int) (hb : f.begin = Option.none) (hs : f.select = Option.none)
    (hi : f.insert = Option.none) (hB : db w = Option.none) :
    ProcessTransaction f db w op amount =
      if op = WITHDRAW ∧ 0 < amount then (some .ErrInsufficientFunds, db)
      else
        match f.update with
        | some text => (some (.wrapf "failed to update balance" (.other text)), db)
        | Option.none =>
          if isInt64 (delta op amount) then
            match f.commit with
            | some text => (some (.wrapf "failed to commit transaction" (.other text)), db)
            | Option.none => (Option.none, (db.put w 0).put w (delta op amount))
          else (some (.wrapf "failed to update balance" (.other "bigint out of range")), db) := by
  unfold ProcessTransaction transactionBody
  rw [selectOrCreate_absent f db w hs hi hB]
  simp only [hb, applyDelta, execUpdate, Store.put_same, zero_add]
  by_cases hc : op = WITHDRAW ∧ 0 < amount
  · simp [hc]
  · simp only [hc, if_false]
    cases hu : f.update with
    | some text => simp
    | none =>
      by_cases hr : isInt64 (delta op amount)
      · cases hco : f.commit <;> simp [hr]
      · simp [hr]

/-- The read of a wallet that is in the table. -/
theorem GetBalance_found (db : Store) (w : String) (B : Int) (hB : db w = some B) :
    GetBalance Option.none db w = ((B, Option.none), db) := by
  simp [GetBalance, queryBalance, hB]

/-- The read of a wallet that is not in the table. -/
theorem GetBalance_absent (db : Store) (w : String) (hB : db w = Option.none) :
    GetBalance Option.none db w = ((0, some .ErrWalletNotFound), db) := by
  simp [GetBalance, queryBalance, hB, Err.Is]

theorem delta_deposit (amount : Int) : delta DEPOSIT amount = amount := by
  simp [delta]

theorem delta_withdraw (amount : Int) (h : isInt64 amount) (hmin : amount ≠ minInt64) :
    delta WITHDRAW amount = -amount := by
  have hne : ¬ (WITHDRAW = DEPOSIT) := by decide
  unfold isInt64 minInt64 maxInt64 at h
  unfold minInt64 at hmin
  simp only [delta, hne, if_false, wrap64]
  omega

/-- On a wallet that holds at least the amount, no error a WITHDRAW returns is
`ErrInsufficientFunds`, whatever the driver does. -/
theorem withdraw_covered_not_insufficient (f : Faults) (db : Store) (w : String) (B A : Int)
    (hB : db w = some B) (hle : A ≤ B) (e : Err)
    (he : (ProcessTransaction f db w WITHDRAW A).1 = some e) :
    e.Is .ErrInsufficientFunds = false := by
  have hnot : ¬ B < A := not_lt.mpr hle
  cases hb : f.begin with
  | some text =>
    simp only [ProcessTransaction, hb, Option.some.injEq] at he
    subst he
    simp [Err.Is]
  | none =>
    cases hs : f.select with
    | some text =>
      simp [ProcessTransaction, transactionBody, selectOrCreate, queryBalance, hb, hs,
        Err.Is] at he
      subst he
      simp [Err.Is]
    | none =>
      rw [ProcessTransaction_found f db w WITHDRAW A B hb hs hB] at he
      simp only [hnot, and_false, if_false] at he
      cases hu : f.update with
      | some text =>
        simp only [hu, Option.some.injEq] at he
        subst he
        simp [Err.Is]
      | none =>
        simp only [hu] at he
        by_cases hr : isInt64 (B + delta WITHDRAW A)
        · simp only [hr, if_true] at he
          cases hc : f.commit with
          | some text =>
            simp only [hc, Option.some.injEq] at he
            subst he
            simp [Err.Is]
          | none => simp [hc] at he
        · simp only [hr, if_false, Option.some.injEq] at he
          subst he
          simp [Err.Is]

/-- A body with the three members under the keys of the struct tags decodes to
the request they spell. -/
theorem Decode_tagged (s op : String) (n : Int) (hn : isInt64 n) :
    Decode (.object [("valletId", .string s), ("operationType", .string op),
      ("amount", .integer n)]) = .ok ⟨s, op, n⟩ := by
  have h1 : matchesTag "valletId" walletIDTag = true := by decide
  have h2 : matchesTag "operationType" walletIDTag = false := by decide
  have h3 : matchesTag "operationType" operationTypeTag = true := by decide
  have h4 : matchesTag "amount" walletIDTag = false := by decide
  have h5 : matchesTag "amount" operationTypeTag = false := by decide
  have h6 : matchesTag "amount" amountTag = true := by decide
  simp [Decode, List.foldl, decodeMember, h1, h2, h3, h4, h5, h6, hn]

/-- A body that gives the wallet ID under the key `walletId` decodes to a request
with an empty wallet ID: the key selects no field. -/
theorem Decode_walletId_key (s op : String) (n : Int) (hn : isInt64 n) :
    Decode (.object [("walletId", .string s), ("operationType", .string op),
      ("amount", .integer n)]) = .ok ⟨"", op, n⟩ := by
  have h1 : matchesTag "walletId" walletIDTag = false := by decide
  have h1b : matchesTag "walletId" operationTypeTag = false := by decide
  have h1c : matchesTag "walletId" amountTag = false := by decide
  have h2 : matchesTag "operationType" walletIDTag = false := by decide
  have h3 : matchesTag "operationType" operationTypeTag = true := by decide
  have h4 : matchesTag "amount" walletIDTag = false := by decide
  have h5 : matchesTag "amount" operationTypeTag = false := by decide
  have h6 : matchesTag "amount" amountTag = true := by decide
  simp [Decode, List.foldl, decodeMember, h1, h1b, h1c, h2, h3, h4, h5, h6, hn]

/-- The handler on a decoded request with an empty wallet ID. -/
theorem WalletOperationHandler_empty_id {σ : Type} (srv : Wallet σ) (st : σ)
    (op : OperationType) (n : Int) :
    (WalletOperationHandler srv (.ok ⟨"", op, n⟩) st).response
        = ⟨400, Option.none, .error ⟨"Wallet ID is required"⟩⟩ ∧
      (WalletOperationHandler srv (.ok ⟨"", op, n⟩) st).calls = [] ∧
      (WalletOperationHandler srv (.ok ⟨"", op, n⟩) st).state = st := by
  simp [WalletOperationHandler, sendErrorResponse]

/-- The handler on a decoded request that passes validation: one call, and 200
with an empty body when the call returns `nil`. -/
theorem WalletOperationHandler_valid {σ : Type} (srv : Wallet σ) (st : σ)
    (s : String) (op : OperationType) (n : Int) (hs : s ≠ "")
    (hop : op = DEPOSIT ∨ op = WITHDRAW) (hn : 0 < n) :
    (WalletOperationHandler srv (.ok ⟨s, op, n⟩) st).calls
        = [Call.ProcessTransaction s op n] ∧
      (WalletOperationHandler srv (.ok ⟨s, op, n⟩) st).state
        = (srv.ProcessTransaction s op n st).2 ∧
      ((srv.ProcessTransaction s op n st).1 = Option.none →
        (WalletOperationHandler srv (.ok ⟨s, op, n⟩) st).response
          = ⟨200, some "application/json", .empty⟩) := by
  have h2 : ¬ (op ≠ DEPOSIT ∧ op ≠ WITHDRAW) := by
    rintro ⟨hd, hw⟩
    rcases hop with h | h
    · exact hd h
    · exact hw h
  have h3 : ¬ n ≤ 0 := not_le.mpr hn
  unfold WalletOperationHandler
  simp only [if_neg hs, if_neg h2, if_neg h3]
  rcases hres : srv.ProcessTransaction s op n st with ⟨r, st1⟩
  cases r with
  | none => simp
  | some e =>
    by_cases he : e.Is .ErrInsufficientFunds = true
    · simp [he]
    · have hf : e.Is .ErrInsufficientFunds = false := by simpa using he
      simp [hf]

/-- Whatever the call returns, every wallet other than the one named keeps its
row, or keeps having none. -/
theorem ProcessTransaction_frame (f : Faults) (db : Store) (w : String) (op : OperationType)
    (amount : Int) (k : String) (hk : k ≠ w) :
    (ProcessTransaction f db w op amount).2 k = db k := by
  cases hres : (ProcessTransaction f db w op amount).1 with
  | some e => rw [ProcessTransaction_error_store f db w op amount e hres]
  | none =>
    obtain ⟨B, -, -, -, hstore⟩ := ProcessTransaction_ok_store f db w op amount hres
    rw [hstore k, if_neg hk]

/-! ## The claims -/

/-- C1: on a table in which wallet `w` has balance `B`, a WITHDRAW of an amount
`A > B` returns `ErrInsufficientFunds` (when `Begin` and the locked read reach
the database), and the balance of `w` read afterwards is still `B`. -/
theorem withdraw_above_balance_insufficient (f : Faults) (db : Store) (w : String) (B A : Int)
    (hb : f.begin = Option.none) (hs : f.select = Option.none)
    (hB : db w = some B) (hA : B < A) :
    (ProcessTransaction f db w WITHDRAW A).1 = some .ErrInsufficientFunds ∧
      (GetBalance Option.none (ProcessTransaction f db w WITHDRAW A).2 w).1 = (B, Option.none) := by
  rw [ProcessTransaction_found f db w WITHDRAW A B hb hs hB]
  simp [hA, GetBalance_found db w B hB]

/-- Witness of C1: balance 1000, WITHDRAW 1500. -/
theorem withdraw_above_balance_insufficient_witness :
    (Store.empty.put "w1" 1000) "w1" = some 1000 ∧ (1000 : Int) < 1500 ∧
      (ProcessTransaction Faults.none (Store.empty.put "w1" 1000) "w1" WITHDRAW 1500).1
        = some .ErrInsufficientFunds ∧
      (GetBalance Option.none
        (ProcessTransaction Faults.none (Store.empty.put "w1" 1000) "w1" WITHDRAW 1500).2 "w1").1
        = (1000, Option.none) :=
  ⟨rfl, by decide,
    withdraw_above_balance_insufficient Faults.none (Store.empty.put "w1" 1000) "w1" 1000 1500
      rfl rfl rfl (by decide)⟩

/-- C2, as stated, fails: from a table whose only balance is 0, a DEPOSIT of
-5, an operation of a type that is neither DEPOSIT nor WITHDRAW with amount 5,
and a WITHDRAW of the smallest `int64` (whose negation wraps to itself) each
return `nil` and commit a negative balance. -/
theorem nonneg_invariant_counterexample :
    nonNegative (Store.empty.put "w1" 0) ∧ isInt64 (-5) ∧ isInt64 5 ∧ isInt64 minInt64 ∧
      (ProcessTransaction Faults.none (Store.empty.put "w1" 0) "w1" DEPOSIT (-5)).1 = Option.none ∧
      (ProcessTransaction Faults.none (Store.empty.put "w1" 0) "w1" DEPOSIT (-5)).2 "w1"
        = some (-5) ∧
      ¬ nonNegative (ProcessTransaction Faults.none (Store.empty.put "w1" 0) "w1" DEPOSIT (-5)).2 ∧
      (ProcessTransaction Faults.none (Store.empty.put "w1" 0) "w1" "TRANSFER" 5).1 = Option.none ∧
      (ProcessTransaction Faults.none (Store.empty.put "w1" 0) "w1" "TRANSFER" 5).2 "w1"
        = some (-5) ∧
      (ProcessTransaction Faults.none (Store.empty.put "w1" 0) "w1" WITHDRAW minInt64).1
        = Option.none ∧
      (ProcessTransaction Faults.none (Store.empty.put "w1" 0) "w1" WITHDRAW minInt64).2 "w1"
        = some minInt64 := by
  refine ⟨?_, by decide, by decide, by decide, by decide, by decide, ?_, by decide, by decide,
    by decide, by decide⟩
  · intro k b h
    by_cases hk : k = "w1"
    · simp [Store.put, hk] at h; omega
    · simp [Store.put, Store.empty, hk] at h
  · intro h
    have := h "w1" (-5) (by decide)
    omega

/-- C2, amended: for a DEPOSIT of an amount `≥ 0`, and for a WITHDRAW of any
`int64` amount other than the smallest one, `ProcessTransaction` keeps every
balance of the table at least 0, whatever the driver does. -/
theorem nonneg_invariant_guarded (f : Faults) (db : Store) (w : String) (op : OperationType)
    (amount : Int) (hinv : nonNegative db) (hamt : isInt64 amount)
    (hop : (op = DEPOSIT ∧ 0 ≤ amount) ∨ (op = WITHDRAW ∧ amount ≠ minInt64)) :
    nonNegative (ProcessTransaction f db w op amount).2 := by
  cases hres : (ProcessTransaction f db w op amount).1 with
  | some e => rw [ProcessTransaction_error_store f db w op amount e hres]; exact hinv
  | none =>
    obtain ⟨B, hB, hfunds, -, hstore⟩ := ProcessTransaction_ok_store f db w op amount hres
    have hB0 : 0 ≤ B := by
      rcases hB with h | ⟨-, h⟩
      · exact hinv w B h
      · omega
    intro k b hk
    rw [hstore k] at hk
    by_cases hkw : k = w
    · simp only [hkw, if_true, Option.some.injEq] at hk
      rcases hop with ⟨hd, hpos⟩ | ⟨hw, hmin⟩
      · subst hd
        rw [delta_deposit] at hk
        omega
      · subst hw
        rw [delta_withdraw amount hamt hmin] at hk
        have : ¬ B < amount := fun h => hfunds ⟨rfl, h⟩
        omega
    · simp only [hkw, if_false] at hk
      exact hinv k b hk

/-- Witness of C2 (amended): balance 1000, WITHDRAW 500. -/
theorem nonneg_invariant_guarded_witness :
    nonNegative (Store.empty.put "w1" 1000) ∧ isInt64 500 ∧
      nonNegative (ProcessTransaction Faults.none (Store.empty.put "w1" 1000) "w1" WITHDRAW 500).2 :=
  have hinv : nonNegative (Store.empty.put "w1" 1000) := by
    intro k b h
    by_cases hk : k = "w1"
    · simp [Store.put, hk] at h; omega
    · simp [Store.put, Store.empty, hk] at h
  ⟨hinv, by decide,
    nonneg_invariant_guarded Faults.none (Store.empty.put "w1" 1000) "w1" WITHDRAW 500 hinv
      (by decide) (Or.inr ⟨rfl, by decide⟩)⟩

/-- C3: whenever `ProcessTransaction` returns an error, whichever it is
(insufficient funds, wallet not found, a driver failure at begin, select,
insert, update or commit), the committed table is the table before the call. -/
theorem error_leaves_store_unchanged (f : Faults) (db : Store) (w : String)
    (op : OperationType) (amount : Int) (e : Err)
    (h : (ProcessTransaction f db w op amount).1 = some e) :
    (ProcessTransaction f db w op amount).2 = db :=
  ProcessTransaction_error_store f db w op amount e h

/-- Witness of C3: a first deposit whose insert and update went through and whose
commit fails leaves the table empty. -/
theorem error_leaves_store_unchanged_witness :
    (ProcessTransaction ⟨Option.none, Option.none, Option.none, Option.none, some "conn closed"⟩
        Store.empty "w1" DEPOSIT 10).1
      = some (.wrapf "failed to commit transaction" (.other "conn closed")) ∧
    (ProcessTransaction ⟨Option.none, Option.none, Option.none, Option.none, some "conn closed"⟩
        Store.empty "w1" DEPOSIT 10).2 = Store.empty :=
  ⟨by decide,
    error_leaves_store_unchanged
      ⟨Option.none, Option.none, Option.none, Option.none, some "conn closed"⟩
      Store.empty "w1" DEPOSIT 10 (.wrapf "failed to commit transaction" (.other "conn closed"))
      (by decide)⟩

/-- C4: on a wallet `w` with balance `B` and an amount `A > 0`, a successful
DEPOSIT leaves `w` with `B + A` and a successful WITHDRAW leaves it with
`B - A`; a WITHDRAW with `A ≤ B` (also `A = B`) never returns an error that is
`ErrInsufficientFunds`, and with a working driver it succeeds. -/
theorem success_sets_balance (f : Faults) (db : Store) (w : String) (B A : Int)
    (hB : db w = some B) (hA : 0 < A) (hA64 : isInt64 A) :
    ((ProcessTransaction f db w DEPOSIT A).1 = Option.none →
        (ProcessTransaction f db w DEPOSIT A).2 w = some (B + A)) ∧
      ((ProcessTransaction f db w WITHDRAW A).1 = Option.none →
        (ProcessTransaction f db w WITHDRAW A).2 w = some (B - A)) ∧
      (A ≤ B → ∀ e, (ProcessTransaction f db w WITHDRAW A).1 = some e →
        e.Is .ErrInsufficientFunds = false) ∧
      (A ≤ B → isInt64 B →
        (ProcessTransaction Faults.none db w WITHDRAW A).1 = Option.none ∧
        (ProcessTransaction Faults.none db w WITHDRAW A).2 w = some (B - A)) := by
  have hmin : A ≠ minInt64 := by unfold minInt64; omega
  have hdw : delta WITHDRAW A = -A := delta_withdraw A hA64 hmin
  refine ⟨?_, ?_, ?_, ?_⟩
  · intro h
    obtain ⟨B1, hB1, -, -, hstore⟩ := ProcessTransaction_ok_store f db w DEPOSIT A h
    have hBB : B1 = B := by
      rcases hB1 with h1 | ⟨h1, -⟩
      · rw [hB] at h1; exact (Option.some.inj h1).symm
      · rw [hB] at h1; cases h1
    rw [hstore w, hBB, delta_deposit]
    simp
  · intro h
    obtain ⟨B1, hB1, -, -, hstore⟩ := ProcessTransaction_ok_store f db w WITHDRAW A h
    have hBB : B1 = B := by
      rcases hB1 with h1 | ⟨h1, -⟩
      · rw [hB] at h1; exact (Option.some.inj h1).symm
      · rw [hB] at h1; cases h1
    rw [hstore w, hBB, hdw]
    simp [sub_eq_add_neg]
  · intro hle e he
    exact withdraw_covered_not_insufficient f db w B A hB hle e he
  · intro hle hB64
    have hnot : ¬ B < A := not_lt.mpr hle
    have hr : isInt64 (B + -A) := by
      unfold isInt64 minInt64 maxInt64 at hB64 ⊢
      omega
    rw [ProcessTransaction_found Faults.none db w WITHDRAW A B rfl rfl hB, hdw]
    simp [hnot, hr, Faults.none, Store.put, sub_eq_add_neg]

/-- Witness of C4: balance 1000, WITHDRAW 500 succeeds and leaves balance 500. -/
theorem success_sets_balance_witness :
    (Store.empty.put "w1" 1000) "w1" = some 1000 ∧ (0 : Int) < 500 ∧ isInt64 500 ∧
      (ProcessTransaction Faults.none (Store.empty.put "w1" 1000) "w1" WITHDRAW 500).1
        = Option.none ∧
      (ProcessTransaction Faults.none (Store.empty.put "w1" 1000) "w1" WITHDRAW 500).2 "w1"
        = some 500 :=
  ⟨rfl, by decide, by decide,
    (success_sets_balance Faults.none (Store.empty.put "w1" 1000) "w1" 1000 500 rfl
      (by decide) (by decide)).2.2.2 (by decide) (by decide)⟩

/-- C5, as stated, fails: on a wallet holding the largest `int64`, the DEPOSIT of 1
is refused by the database (the sum does not fit the column) and the WITHDRAW
of 1 that follows succeeds, leaving one less than the original balance; and on
a balance of -3, DEPOSIT 5 gives 2 and the WITHDRAW of 5 is refused, leaving 2. -/
theorem round_trip_counterexample :
    (Store.empty.put "w1" maxInt64) "w1" = some maxInt64 ∧
      (ProcessTransaction Faults.none (Store.empty.put "w1" maxInt64) "w1" DEPOSIT 1).1
        = some (.wrapf "failed to update balance" (.other "bigint out of range")) ∧
      (ProcessTransaction Faults.none
        (ProcessTransaction Faults.none (Store.empty.put "w1" maxInt64) "w1" DEPOSIT 1).2
        "w1" WITHDRAW 1).1 = Option.none ∧
      (ProcessTransaction Faults.none
        (ProcessTransaction Faults.none (Store.empty.put "w1" maxInt64) "w1" DEPOSIT 1).2
        "w1" WITHDRAW 1).2 "w1" = some (maxInt64 - 1) ∧
      (ProcessTransaction Faults.none
        (ProcessTransaction Faults.none (Store.empty.put "w1" maxInt64) "w1" DEPOSIT 1).2
        "w1" WITHDRAW 1).2 "w1" ≠ some maxInt64 ∧
      (ProcessTransaction Faults.none
        (ProcessTransaction Faults.none (Store.empty.put "w1" (-3)) "w1" DEPOSIT 5).2
        "w1" WITHDRAW 5).1 = some .ErrInsufficientFunds ∧
      (ProcessTransaction Faults.none
        (ProcessTransaction Faults.none (Store.empty.put "w1" (-3)) "w1" DEPOSIT 5).2
        "w1" WITHDRAW 5).2 "w1" = some 2 := by
  refine ⟨by decide, by decide, by decide, by decide, by decide, by decide, by decide⟩

/-- C5, amended: for a wallet with balance `B ≥ 0` and an amount `A > 0` such
that `B + A` is at most the largest `int64`, with a working driver the DEPOSIT
of `A` and the WITHDRAW of `A` after it both succeed and the table, and so the
balance of the wallet, is back to what it was. -/
theorem deposit_withdraw_round_trip (db : Store) (w : String) (B A : Int)
    (hB : db w = some B) (hB0 : 0 ≤ B) (hA : 0 < A) (hfit : B + A ≤ maxInt64) :
    (ProcessTransaction Faults.none db w DEPOSIT A).1 = Option.none ∧
      (ProcessTransaction Faults.none
        (ProcessTransaction Faults.none db w DEPOSIT A).2 w WITHDRAW A).1 = Option.none ∧
      (ProcessTransaction Faults.none
        (ProcessTransaction Faults.none db w DEPOSIT A).2 w WITHDRAW A).2 w = some B ∧
      (ProcessTransaction Faults.none
        (ProcessTransaction Faults.none db w DEPOSIT A).2 w WITHDRAW A).2 = db := by
  have hA64 : isInt64 A := by
    unfold isInt64 minInt64; unfold maxInt64 at hfit ⊢; omega
  have hmin : A ≠ minInt64 := by unfold minInt64; omega
  have hne : ¬ (DEPOSIT = WITHDRAW) := by decide
  have hr1 : isInt64 (B + A) := by
    unfold isInt64 minInt64; unfold maxInt64 at hfit ⊢; omega
  have hdep : ProcessTransaction Faults.none db w DEPOSIT A = (Option.none, db.put w (B + A)) := by
    rw [ProcessTransaction_found Faults.none db w DEPOSIT A B rfl rfl hB, delta_deposit]
    simp [hne, hr1, Faults.none]
  have hnot : ¬ (B + A < A) := by omega
  have hwd : ProcessTransaction Faults.none (db.put w (B + A)) w WITHDRAW A
      = (Option.none, (db.put w (B + A)).put w (B + A + -A)) := by
    rw [ProcessTransaction_found Faults.none (db.put w (B + A)) w WITHDRAW A (B + A) rfl rfl
      (Store.put_same db w (B + A)), delta_withdraw A hA64 hmin]
    have hr3 : isInt64 B := by
      unfold isInt64 minInt64; unfold maxInt64 at hfit ⊢; omega
    simp [hnot, hr3, Faults.none]
  have hback : (db.put w (B + A)).put w (B + A + -A) = db := by
    funext k
    by_cases hk : k = w
    · simp [Store.put, hk, hB]
    · simp [Store.put, hk]
  rw [hdep]
  simp only [hwd, hback]
  exact ⟨trivial, trivial, hB, trivial⟩

/-- Witness of C5 (amended): balance 1000, DEPOSIT 500 then WITHDRAW 500. -/
theorem deposit_withdraw_round_trip_witness :
    (Store.empty.put "w1" 1000) "w1" = some 1000 ∧ (0 : Int) ≤ 1000 ∧ (0 : Int) < 500 ∧
      (1000 : Int) + 500 ≤ maxInt64 ∧
      (ProcessTransaction Faults.none
        (ProcessTransaction Faults.none (Store.empty.put "w1" 1000) "w1" DEPOSIT 500).2
        "w1" WITHDRAW 500).2 "w1" = some 1000 :=
  ⟨rfl, by decide, by decide, by decide,
    (deposit_withdraw_round_trip (Store.empty.put "w1" 1000) "w1" 1000 500 rfl (by decide)
      (by decide) (by decide)).2.2.1⟩

/-- C6: for a wallet id `w` that is not in the table and an amount `A > 0`, with a
working driver DEPOSIT succeeds with no earlier call that creates the wallet,
and `GetBalance(w)` right after returns `(A, nil)`. -/
theorem first_deposit_creates_wallet (db : Store) (w : String) (A : Int)
    (habs : db w = Option.none) (_hA : 0 < A) (hA64 : isInt64 A) :
    (ProcessTransaction Faults.none db w DEPOSIT A).1 = Option.none ∧
      (GetBalance Option.none (ProcessTransaction Faults.none db w DEPOSIT A).2 w).1
        = (A, Option.none) := by
  have hne : ¬ (DEPOSIT = WITHDRAW) := by decide
  rw [ProcessTransaction_absent Faults.none db w DEPOSIT A rfl rfl rfl habs, delta_deposit]
  simp only [hne, false_and, if_false, Faults.none, hA64, if_true]
  exact ⟨trivial, by rw [GetBalance_found _ w A (Store.put_same _ w A)]⟩

/-- Witness of C6: DEPOSIT 1000 on the empty table. -/
theorem first_deposit_creates_wallet_witness :
    Store.empty "w1" = Option.none ∧ (0 : Int) < 1000 ∧ isInt64 1000 ∧
      (ProcessTransaction Faults.none Store.empty "w1" DEPOSIT 1000).1 = Option.none ∧
      (GetBalance Option.none (ProcessTransaction Faults.none Store.empty "w1" DEPOSIT 1000).2
        "w1").1 = (1000, Option.none) :=
  ⟨rfl, by decide, by decide,
    first_deposit_creates_wallet Store.empty "w1" 1000 rfl (by decide) (by decide)⟩

/-- C7, as stated, fails: on the empty table WITHDRAW 5 for `w1` returns
`ErrInsufficientFunds`, and `GetBalance("w1")` afterwards returns
`ErrWalletNotFound`, not `(0, nil)`: the deferred rollback undoes the insert. -/
theorem failed_withdraw_counterexample :
    Store.empty "w1" = Option.none ∧
      (ProcessTransaction Faults.none Store.empty "w1" WITHDRAW 5).1
        = some .ErrInsufficientFunds ∧
      (GetBalance Option.none (ProcessTransaction Faults.none Store.empty "w1" WITHDRAW 5).2
        "w1").1 = (0, some .ErrWalletNotFound) ∧
      (GetBalance Option.none (ProcessTransaction Faults.none Store.empty "w1" WITHDRAW 5).2
        "w1").1 ≠ (0, Option.none) := by
  refine ⟨rfl, by decide, by decide, by decide⟩

/-- C7, amended: for a wallet id `w` that is not in the table and an amount
`A > 0`, WITHDRAW returns `ErrInsufficientFunds` (when `Begin`, the locked read
and the insert reach the database), the insert is rolled back with the
transaction, and `GetBalance(w)` afterwards returns `ErrWalletNotFound`. -/
theorem failed_withdraw_creates_nothing (f : Faults) (db : Store) (w : String) (A : Int)
    (hb : f.begin = Option.none) (hs : f.select = Option.none) (hi : f.insert = Option.none)
    (habs : db w = Option.none) (hA : 0 < A) :
    (ProcessTransaction f db w WITHDRAW A).1 = some .ErrInsufficientFunds ∧
      (ProcessTransaction f db w WITHDRAW A).2 = db ∧
      (GetBalance Option.none (ProcessTransaction f db w WITHDRAW A).2 w).1
        = (0, some .ErrWalletNotFound) := by
  rw [ProcessTransaction_absent f db w WITHDRAW A hb hs hi habs]
  simp [hA, GetBalance_absent db w habs]

/-- Witness of C7 (amended): WITHDRAW 5 on the empty table. -/
theorem failed_withdraw_creates_nothing_witness :
    Store.empty "w1" = Option.none ∧ (0 : Int) < 5 ∧
      (ProcessTransaction Faults.none Store.empty "w1" WITHDRAW 5).1
        = some .ErrInsufficientFunds ∧
      (ProcessTransaction Faults.none Store.empty "w1" WITHDRAW 5).2 = Store.empty ∧
      (GetBalance Option.none (ProcessTransaction Faults.none Store.empty "w1" WITHDRAW 5).2
        "w1").1 = (0, some .ErrWalletNotFound) :=
  ⟨rfl, by decide,
    failed_withdraw_creates_nothing Faults.none Store.empty "w1" 5 rfl rfl rfl rfl (by decide)⟩

/-- C8: `GetBalance` never changes the table; it returns `(B, nil)` exactly when
the read reaches the database and the wallet is there with balance `B`; it
returns `ErrWalletNotFound` exactly when the read reaches the database and the
wallet is not there; and on a driver failure it returns that failure wrapped,
which is not `ErrWalletNotFound` for `errors.Is`. -/
theorem GetBalance_point_read (fault : Option String) (db : Store) (w : String) :
    (GetBalance fault db w).2 = db ∧
      (∀ B : Int, (GetBalance fault db w).1 = (B, Option.none) ↔
        (fault = Option.none ∧ db w = some B)) ∧
      ((GetBalance fault db w).1 = (0, some .ErrWalletNotFound) ↔
        (fault = Option.none ∧ db w = Option.none)) ∧
      (∀ text : String, fault = some text →
        (GetBalance fault db w).1 = (0, some (.wrapf "failed to get balance" (.other text))) ∧
        (Err.wrapf "failed to get balance" (.other text)).Is .ErrWalletNotFound = false) := by
  cases fault with
  | some text =>
    simp [GetBalance, queryBalance, Err.Is]
  | none =>
    cases hw : db w with
    | none => simp [GetBalance, queryBalance, Err.Is, hw]
    | some b =>
      simp only [GetBalance, queryBalance, hw]
      refine ⟨trivial, ?_, ?_, ?_⟩
      · intro B
        constructor
        · intro h
          simp only [Prod.mk.injEq, and_true] at h
          exact ⟨trivial, by rw [h]⟩
        · rintro ⟨-, h⟩
          simp only [Option.some.injEq] at h
          rw [h]
      · simp
      · intro text h
        cases h

/-- C9: a decoded request with an empty wallet ID, an operation type that is
neither DEPOSIT nor WITHDRAW, or an amount `≤ 0` is answered with status 400
and the error text of the first of these checks that fails, in this order;
`ProcessTransaction` is not called and the state of the service is untouched. -/
theorem operation_handler_rejects_invalid {σ : Type} (srv : Wallet σ) (st : σ)
    (req : WalletRequest)
    (h : req.WalletID = "" ∨ (req.OperationType ≠ DEPOSIT ∧ req.OperationType ≠ WITHDRAW) ∨
      req.Amount ≤ 0) :
    (WalletOperationHandler srv (.ok req) st).response.status = 400 ∧
      (WalletOperationHandler srv (.ok req) st).response.body = .error ⟨
        if req.WalletID = "" then "Wallet ID is required"
        else if req.OperationType ≠ DEPOSIT ∧ req.OperationType ≠ WITHDRAW then
          "Operation type must be DEPOSIT or WITHDRAW"
        else "Amount must be more than 0"⟩ ∧
      (WalletOperationHandler srv (.ok req) st).calls = [] ∧
      (WalletOperationHandler srv (.ok req) st).state = st := by
  unfold WalletOperationHandler
  by_cases h1 : req.WalletID = ""
  · simp only [if_pos h1, sendErrorResponse]
    exact ⟨trivial, trivial, trivial, trivial⟩
  · by_cases h2 : req.OperationType ≠ DEPOSIT ∧ req.OperationType ≠ WITHDRAW
    · simp only [if_neg h1, if_pos h2, sendErrorResponse]
      exact ⟨trivial, trivial, trivial, trivial⟩
    · have h3 : req.Amount ≤ 0 := by
        rcases h with h | h | h
        · exact absurd h h1
        · exact absurd h h2
        · exact h
      simp only [if_neg h1, if_neg h2, if_pos h3, sendErrorResponse]
      exact ⟨trivial, trivial, trivial, trivial⟩

/-- Witness of C9: a request failing all three checks is answered for the first,
and the repository behind the service is not called. -/
theorem operation_handler_rejects_invalid_witness :
    (WalletOperationHandler (WalletService (WalletRepository Faults.none Option.none))
        (.ok ⟨"", "DEPOSITT", -100⟩) Store.empty).response.status = 400 ∧
      (WalletOperationHandler (WalletService (WalletRepository Faults.none Option.none))
        (.ok ⟨"", "DEPOSITT", -100⟩) Store.empty).response.body
        = .error ⟨"Wallet ID is required"⟩ ∧
      (WalletOperationHandler (WalletService (WalletRepository Faults.none Option.none))
        (.ok ⟨"", "DEPOSITT", -100⟩) Store.empty).calls = [] ∧
      (WalletOperationHandler (WalletService (WalletRepository Faults.none Option.none))
        (.ok ⟨"", "DEPOSITT", -100⟩) Store.empty).state = Store.empty :=
  operation_handler_rejects_invalid (WalletService (WalletRepository Faults.none Option.none))
    Store.empty ⟨"", "DEPOSITT", -100⟩ (Or.inl rfl)

/-- C10, as stated, fails: when the service returns `ErrInsufficientFunds`
wrapped with a context, the handler answers 400 with the whole text of the
wrapping error, context included, not with `insufficient funds`; two results
of the same kind give different bodies. -/
theorem operation_handler_wrapped_counterexample :
    (Err.wrapf "repository" .ErrInsufficientFunds).Is .ErrInsufficientFunds = true ∧
      (WalletOperationHandler (failingWallet (.wrapf "repository" .ErrInsufficientFunds))
        (.ok ⟨"w1", WITHDRAW, 5000⟩) ()).response
        = ⟨400, Option.none, .error ⟨"repository: insufficient funds"⟩⟩ ∧
      (WalletOperationHandler (failingWallet .ErrInsufficientFunds)
        (.ok ⟨"w1", WITHDRAW, 5000⟩) ()).response
        = ⟨400, Option.none, .error ⟨"insufficient funds"⟩⟩ ∧
      (WalletOperationHandler (failingWallet (.wrapf "repository" .ErrInsufficientFunds))
        (.ok ⟨"w1", WITHDRAW, 5000⟩) ()).response
        ≠ ⟨400, Option.none, .error ⟨"insufficient funds"⟩⟩ := by
  refine ⟨by decide, by decide, by decide, by decide⟩

/-- C10, amended: for a request that passes validation the handler calls
`ProcessTransaction` once and answers from its result: `nil` gives 200 with an
empty body; `ErrInsufficientFunds` itself gives 400 with `insufficient funds`;
an error that wraps it gives 400 with that error's own text; every other
error, `ErrWalletNotFound` and wrapped driver errors included, gives 500 with
`Internal server error` and nothing else. -/
theorem operation_handler_result_mapping {σ : Type} (srv : Wallet σ) (st : σ)
    (req : WalletRequest) (hid : req.WalletID ≠ "")
    (hop : req.OperationType = DEPOSIT ∨ req.OperationType = WITHDRAW)
    (hamt : 0 < req.Amount) :
    (WalletOperationHandler srv (.ok req) st).calls
        = [Call.ProcessTransaction req.WalletID req.OperationType req.Amount] ∧
      (WalletOperationHandler srv (.ok req) st).state
        = (srv.ProcessTransaction req.WalletID req.OperationType req.Amount st).2 ∧
      ((srv.ProcessTransaction req.WalletID req.OperationType req.Amount st).1 = Option.none →
        (WalletOperationHandler srv (.ok req) st).response
          = ⟨200, some "application/json", .empty⟩) ∧
      ((srv.ProcessTransaction req.WalletID req.OperationType req.Amount st).1
          = some .ErrInsufficientFunds →
        (WalletOperationHandler srv (.ok req) st).response
          = ⟨400, Option.none, .error ⟨"insufficient funds"⟩⟩) ∧
      (∀ e : Err, (srv.ProcessTransaction req.WalletID req.OperationType req.Amount st).1 = some e →
        e.Is .ErrInsufficientFunds = true →
        (WalletOperationHandler srv (.ok req) st).response
          = ⟨400, Option.none, .error ⟨e.Error⟩⟩) ∧
      (∀ e : Err, (srv.ProcessTransaction req.WalletID req.OperationType req.Amount st).1 = some e →
        e.Is .ErrInsufficientFunds = false →
        (WalletOperationHandler srv (.ok req) st).response
          = ⟨500, Option.none, .error ⟨"Internal server error"⟩⟩) ∧
      Err.ErrWalletNotFound.Is .ErrInsufficientFunds = false ∧
      (∀ ctx text : String, (Err.wrapf ctx (.other text)).Is .ErrInsufficientFunds = false) := by
  have h2 : ¬ (req.OperationType ≠ DEPOSIT ∧ req.OperationType ≠ WITHDRAW) := by
    rintro ⟨hd, hw⟩
    rcases hop with h | h
    · exact hd h
    · exact hw h
  have h3 : ¬ req.Amount ≤ 0 := not_le.mpr hamt
  unfold WalletOperationHandler
  simp only [if_neg hid, if_neg h2, if_neg h3, sendErrorResponse]
  rcases hres : srv.ProcessTransaction req.WalletID req.OperationType req.Amount st with ⟨r, st1⟩
  cases r with
  | none => simp [Err.Is]
  | some e =>
    by_cases he : e.Is .ErrInsufficientFunds = true
    · simp only [he, if_true]
      refine ⟨trivial, trivial, ?_, ?_, ?_, ?_, by simp [Err.Is], by simp [Err.Is]⟩
      · intro h; cases h
      · intro h
        simp only [Option.some.injEq] at h
        subst h
        rfl
      · intro e1 h _
        simp only [Option.some.injEq] at h
        subst h
        rfl
      · intro e1 h hf
        simp only [Option.some.injEq] at h
        subst h
        rw [he] at hf
        cases hf
    · have hf : e.Is .ErrInsufficientFunds = false := by simpa using he
      simp only [hf, Bool.false_eq_true, if_false]
      refine ⟨trivial, trivial, ?_, ?_, ?_, ?_, by simp [Err.Is], by simp [Err.Is]⟩
      · intro h; cases h
      · intro h
        simp only [Option.some.injEq] at h
        subst h
        exact absurd (by decide) he
      · intro e1 h ht
        simp only [Option.some.injEq] at h
        subst h
        exact absurd ht he
      · intro e1 h _
        trivial

/-- Witness of C10 (amended): a valid deposit through the service and the
repository whose commit fails is answered 500 with the generic text. -/
theorem operation_handler_result_mapping_witness :
    (WalletOperationHandler
        (WalletService (WalletRepository
          ⟨Option.none, Option.none, Option.none, Option.none, some "conn closed"⟩ Option.none))
        (.ok ⟨"w1", DEPOSIT, 1000⟩) Store.empty).response
      = ⟨500, Option.none, .error ⟨"Internal server error"⟩⟩ :=
  (operation_handler_result_mapping
    (WalletService (WalletRepository
      ⟨Option.none, Option.none, Option.none, Option.none, some "conn closed"⟩ Option.none))
    Store.empty ⟨"w1", DEPOSIT, 1000⟩ (by decide) (Or.inl rfl) (by decide)).2.2.2.2.2.1
    (.wrapf "failed to commit transaction" (.other "conn closed")) (by decide) (by decide)

/-- C11: `GetBalanceHandler` answers 400 `Wallet ID is required` for an empty
`walletId` without calling `GetBalance`; otherwise it calls `GetBalance` once
and answers 200 with the requested ID and the balance `B` when the call
returns `(B, nil)`, 404 `Wallet not found` when the returned error is
`ErrWalletNotFound` for `errors.Is`, and 500 `Internal server error` for every
other error. -/
theorem get_balance_handler_mapping {σ : Type} (srv : Wallet σ) (st : σ) (walletID : String) :
    (walletID = "" →
        (GetBalanceHandler srv walletID st).response
          = ⟨400, Option.none, .error ⟨"Wallet ID is required"⟩⟩ ∧
        (GetBalanceHandler srv walletID st).calls = [] ∧
        (GetBalanceHandler srv walletID st).state = st) ∧
      (walletID ≠ "" →
        (GetBalanceHandler srv walletID st).calls = [Call.GetBalance walletID] ∧
        (∀ B : Int, (srv.GetBalance walletID st).1 = (B, Option.none) →
          (GetBalanceHandler srv walletID st).response
            = ⟨200, some "application/json", .balance ⟨walletID, B⟩⟩) ∧
        (∀ B : Int, (srv.GetBalance walletID st).1 = (B, some .ErrWalletNotFound) →
          (GetBalanceHandler srv walletID st).response
            = ⟨404, Option.none, .error ⟨"Wallet not found"⟩⟩) ∧
        (∀ (B : Int) (e : Err), (srv.GetBalance walletID st).1 = (B, some e) →
          e.Is .ErrWalletNotFound = true →
          (GetBalanceHandler srv walletID st).response
            = ⟨404, Option.none, .error ⟨"Wallet not found"⟩⟩) ∧
        (∀ (B : Int) (e : Err), (srv.GetBalance walletID st).1 = (B, some e) →
          e.Is .ErrWalletNotFound = false →
          (GetBalanceHandler srv walletID st).response
            = ⟨500, Option.none, .error ⟨"Internal server error"⟩⟩)) := by
  constructor
  · intro h
    simp [GetBalanceHandler, h, sendErrorResponse]
  · intro h
    unfold GetBalanceHandler
    simp only [if_neg h, sendErrorResponse]
    rcases hres : srv.GetBalance walletID st with ⟨⟨b, r⟩, st1⟩
    cases r with
    | none =>
      refine ⟨rfl, ?_, ?_, ?_, ?_⟩
      · intro B hB
        simp only [Prod.mk.injEq, and_true] at hB
        rw [hB]
      · intro B hB
        simp at hB
      · intro B e hB
        simp at hB
      · intro B e hB
        simp at hB
    | some e =>
      by_cases he : e.Is .ErrWalletNotFound = true
      · simp only [he, if_true]
        refine ⟨trivial, ?_, ?_, ?_, ?_⟩
        · intro B hB
          simp at hB
        · intro B _
          trivial
        · intro B e1 _ _
          trivial
        · intro B e1 hB hf
          simp only [Prod.mk.injEq, Option.some.injEq] at hB
          rw [← hB.2, he] at hf
          cases hf
      · have hf : e.Is .ErrWalletNotFound = false := by simpa using he
        simp only [hf, Bool.false_eq_true, if_false]
        refine ⟨trivial, ?_, ?_, ?_, ?_⟩
        · intro B hB
          simp at hB
        · intro B hB
          simp only [Prod.mk.injEq, Option.some.injEq] at hB
          rw [hB.2] at hf
          exact absurd hf (by decide)
        · intro B e1 hB ht
          simp only [Prod.mk.injEq, Option.some.injEq] at hB
          rw [← hB.2, hf] at ht
          cases ht
        · intro B e1 _ _
          trivial

/-- Witness of C11: the balance of a wallet holding 500, read through the service
and the repository. -/
theorem get_balance_handler_mapping_witness :
    (GetBalanceHandler (WalletService (WalletRepository Faults.none Option.none)) "w1"
        (Store.empty.put "w1" 500)).response
      = ⟨200, some "application/json", .balance ⟨"w1", 500⟩⟩ :=
  ((get_balance_handler_mapping (WalletService (WalletRepository Faults.none Option.none))
    (Store.empty.put "w1" 500) "w1").2 (by decide)).2.1 500 (by decide)

/-- C12, as stated, fails: the body with the wallet ID under the key `walletId`,
operation type DEPOSIT and amount 1000 is answered 400 `Wallet ID is required`
and `ProcessTransaction` is not called, although the call for `w1` would have
succeeded: the struct tag of the field is `valletId`. -/
theorem post_wallet_walletId_counterexample :
    (PostWallet (WalletService (WalletRepository Faults.none Option.none))
        (.object [("walletId", .string "w1"), ("operationType", .string "DEPOSIT"),
          ("amount", .integer 1000)]) Store.empty).response
        = ⟨400, Option.none, .error ⟨"Wallet ID is required"⟩⟩ ∧
      (PostWallet (WalletService (WalletRepository Faults.none Option.none))
        (.object [("walletId", .string "w1"), ("operationType", .string "DEPOSIT"),
          ("amount", .integer 1000)]) Store.empty).calls = [] ∧
      ((WalletService (WalletRepository Faults.none Option.none)).ProcessTransaction
        "w1" DEPOSIT 1000 Store.empty).1 = Option.none := by
  refine ⟨by decide, by decide, by decide⟩

/-- C12, amended: the handler takes the wallet ID from the body member named
`valletId`. For a non-empty `s`, operation type DEPOSIT or WITHDRAW and an
`int64` amount `n > 0`, the body with `s` under `valletId` makes the handler
call `ProcessTransaction` with wallet ID `s`, and answer 200 when the call
succeeds; the same body with `s` under `walletId` is answered 400
`Wallet ID is required` with no call. -/
theorem post_wallet_reads_valletId {σ : Type} (srv : Wallet σ) (st : σ) (s op : String)
    (n : Int) (hs : s ≠ "") (hop : op = DEPOSIT ∨ op = WITHDRAW) (hn : 0 < n)
    (hn64 : isInt64 n) :
    (PostWallet srv (.object [("valletId", .string s), ("operationType", .string op),
        ("amount", .integer n)]) st).calls = [Call.ProcessTransaction s op n] ∧
      ((srv.ProcessTransaction s op n st).1 = Option.none →
        (PostWallet srv (.object [("valletId", .string s), ("operationType", .string op),
          ("amount", .integer n)]) st).response = ⟨200, some "application/json", .empty⟩) ∧
      (PostWallet srv (.object [("walletId", .string s), ("operationType", .string op),
        ("amount", .integer n)]) st).response
        = ⟨400, Option.none, .error ⟨"Wallet ID is required"⟩⟩ ∧
      (PostWallet srv (.object [("walletId", .string s), ("operationType", .string op),
        ("amount", .integer n)]) st).calls = [] := by
  unfold PostWallet
  rw [Decode_tagged s op n hn64, Decode_walletId_key s op n hn64]
  obtain ⟨hcalls, -, hresp⟩ := WalletOperationHandler_valid srv st s op n hs hop hn
  obtain ⟨hresp0, hcalls0, -⟩ := WalletOperationHandler_empty_id srv st op n
  exact ⟨hcalls, hresp, hresp0, hcalls0⟩

/-- Witness of C12 (amended): DEPOSIT 1000 for `w1` given under `valletId`, through
the service and the repository on the empty table. -/
theorem post_wallet_reads_valletId_witness :
    (PostWallet (WalletService (WalletRepository Faults.none Option.none))
        (.object [("valletId", .string "w1"), ("operationType", .string "DEPOSIT"),
          ("amount", .integer 1000)]) Store.empty).calls
        = [Call.ProcessTransaction "w1" "DEPOSIT" 1000] ∧
      (PostWallet (WalletService (WalletRepository Faults.none Option.none))
        (.object [("valletId", .string "w1"), ("operationType", .string "DEPOSIT"),
          ("amount", .integer 1000)]) Store.empty).response
        = ⟨200, some "application/json", .empty⟩ :=
  have h := post_wallet_reads_valletId (WalletService (WalletRepository Faults.none Option.none))
    Store.empty "w1" "DEPOSIT" 1000 (by decide) (Or.inl rfl) (by decide) (by decide)
  ⟨h.1, h.2.1 (by decide)⟩

/-- C14: for every table, wallet ID `w`, operation type and amount, and whatever
the driver does, `ProcessTransaction(w, ...)` leaves every wallet with another
ID as it was, there with the same balance or not there, whether the call
succeeds or fails. -/
theorem other_wallets_unchanged (f : Faults) (db : Store) (w : String) (op : OperationType)
    (amount : Int) (k : String) (hk : k ≠ w) :
    (ProcessTransaction f db w op amount).2 k = db k :=
  ProcessTransaction_frame f db w op amount k hk

/-- Witness of C14: a WITHDRAW on `w1` leaves the balance of `w2` and the absence
of `w3`. -/
theorem other_wallets_unchanged_witness :
    (ProcessTransaction Faults.none ((Store.empty.put "w1" 1000).put "w2" 7) "w1" WITHDRAW 500).2
        "w2" = some 7 ∧
      (ProcessTransaction Faults.none ((Store.empty.put "w1" 1000).put "w2" 7) "w1" WITHDRAW 500).2
        "w3" = Option.none :=
  ⟨other_wallets_unchanged Faults.none ((Store.empty.put "w1" 1000).put "w2" 7) "w1" WITHDRAW 500
      "w2" (by decide),
    other_wallets_unchanged Faults.none ((Store.empty.put "w1" 1000).put "w2" 7) "w1" WITHDRAW 500
      "w3" (by decide)⟩

end WalletApp
